import Mathlib

/-!
Shallow embedding of the SecurePassGen password generator
(`src/password.c`, `src/security.c`, constants from `src/config.h` and
`src/power.h`).  Machine integers (`size_t`, `int`) are modelled as `Nat`
(all values involved are provably non-negative and small); C strings are
`List Char`; the random byte source is an explicit stream `r : Nat → Nat`
(the byte drawn at step `n` is `r n % 256`); heap allocation outcomes are
an explicit oracle `a : Nat → Bool`.  Floating-point entropy values are
never needed by any claim; the single place the generator consumes them
(the `(int)((entropy/128.0)*100)` cast) is abstracted as an oracle
`e : List Char → PasswordOptions → Int`, with the subsequent integer
clamping and category lookup translated faithfully from the source.
-/

namespace PassGen

/-! ## Character sets (config.h) -/

def lowercaseChars : List Char := "abcdefghijklmnopqrstuvwxyz".toList

def uppercaseChars : List Char := "ABCDEFGHIJKLMNOPQRSTUVWXYZ".toList

def numberChars : List Char := "0123456789".toList

def specialChars : List Char := "!@#$%^&*".toList

def ambiguousChars : List Char := "lI1O0".toList

def nulChar : Char := Char.ofNat 0

/-! ## Data model (power.h) -/

structure CharSetConfig where
  lowercase : Bool
  uppercase : Bool
  numbers : Bool
  special : Bool
  avoid_ambiguous : Bool
deriving DecidableEq

structure PasswordOptions where
  length : Nat
  charset : CharSetConfig
  require_all_types : Bool
  min_numbers : Nat
  min_special : Nat
deriving DecidableEq

/-- `PasswordResult` from power.h.  The C struct holds `char *password`
(NULL on failure, modelled as `none`), a length, a `double entropy`
(dropped: no claim mentions it), an `int strength_score` and a
`const char *strength` (NULL in the zero-initialised struct, modelled as
`none`). -/
structure PasswordResult where
  password : Option (List Char)
  length : Nat
  strength_score : Int
  strength : Option String
deriving DecidableEq

def MIN_PASSWORD_LENGTH : Nat := 8

def MAX_PASSWORD_LENGTH : Nat := 128

/-- `password_options_init` from password.c (defaults; DEFAULT_PASSWORD_LENGTH
is 16 in config.h, which is the header included by password.c). -/
def password_options_init : PasswordOptions :=
  { length := 16
    charset :=
      { lowercase := true, uppercase := true, numbers := true,
        special := true, avoid_ambiguous := false }
    require_all_types := true
    min_numbers := 1
    min_special := 1 }

/-- Number of selected charset categories (the `selected_types` computation
inside `validate_options`). -/
def selectedTypes (o : PasswordOptions) : Nat :=
  (if o.charset.lowercase then 1 else 0) + (if o.charset.uppercase then 1 else 0) +
  (if o.charset.numbers then 1 else 0) + (if o.charset.special then 1 else 0)

/-- `validate_options` from password.c (non-NULL case; the NULL pointer case
is handled at the call sites that take an `Option PasswordOptions`). -/
def validate_options (o : PasswordOptions) : Bool :=
  if o.length < MIN_PASSWORD_LENGTH || o.length > MAX_PASSWORD_LENGTH then
    false
  else if !o.charset.lowercase && !o.charset.uppercase &&
      !o.charset.numbers && !o.charset.special then
    false
  else if o.require_all_types && o.length < selectedTypes o then
    false
  else if o.min_numbers > (if o.charset.numbers then o.length else 0) ||
      o.min_special > (if o.charset.special then o.length else 0) then
    false
  else if o.min_numbers + o.min_special > o.length then
    false
  else
    true

/-- The validity predicate exactly as claim C7 words it (spec §3); compared
against the source-translated `validate_options` in the C7 theorem. -/
def specValidOptions (o : PasswordOptions) : Prop :=
  (o.charset.lowercase ∨ o.charset.uppercase ∨ o.charset.numbers ∨ o.charset.special) ∧
  (8 ≤ o.length ∧ o.length ≤ 128) ∧
  (o.require_all_types → selectedTypes o ≤ o.length) ∧
  (if o.charset.numbers then o.min_numbers ≤ o.length else o.min_numbers = 0) ∧
  (if o.charset.special then o.min_special ≤ o.length else o.min_special = 0) ∧
  o.min_numbers + o.min_special ≤ o.length

instance (o : PasswordOptions) : Decidable (specValidOptions o) := by
  unfold specValidOptions; infer_instance

/-- C7: `validate_options` returns true exactly on the option records the
spec calls valid: at least one category selected, length in [8,128],
length at least the number of selected categories when require-all-types
is set, each minimum count at most the length when its category is
selected and zero otherwise, and the two minimums summing to at most the
length. -/
theorem validate_options_iff (o : PasswordOptions) :
    validate_options o = true ↔ specValidOptions o := by
  obtain ⟨len, ⟨lb, ub, nb, sb, avoid⟩, req, mn, ms⟩ := o
  simp only [validate_options, specValidOptions, selectedTypes, MIN_PASSWORD_LENGTH,
    MAX_PASSWORD_LENGTH]
  cases lb <;> cases ub <;> cases nb <;> cases sb <;> cases req <;>
    simp <;> omega

/-! ## Generation helpers (password.c) -/

/-- `get_random_char_from_set` from password.c.  One byte is drawn from the
stream (`b` is the already-drawn byte value `r n % 256`); the C function
returns `'\0'` on a NULL/empty set, else `char_set[byte % set_size]`. -/
def get_random_char_from_set (charSet : List Char) (b : Nat) : Char :=
  if charSet.length = 0 then nulChar
  else charSet.getD (b % charSet.length) nulChar

/-- The byte the C code obtains at draw `n`: `get_random_bytes` on success,
else the `random_range(0,255)` fallback — either way one stream value
reduced to 0..255. -/
def drawByte (r : Nat → Nat) (n : Nat) : Nat := r n % 256

/-- `contains_char_type` from password.c (`strchr` hit for some position). -/
def contains_char_type (password charSet : List Char) : Bool :=
  password.any (fun c => charSet.contains c)

/-- `count_char_type` from password.c. -/
def count_char_type (password charSet : List Char) : Nat :=
  password.countP (fun c => charSet.contains c)

/-- The concatenated raw pool built by the four `secure_string_append_cstr`
calls in `generate_password` (the initial capacity 256 exceeds the maximal
total 70, so the appends never reallocate and cannot fail). -/
def buildRawPool (o : PasswordOptions) : List Char :=
  (if o.charset.lowercase then lowercaseChars else []) ++
  (if o.charset.uppercase then uppercaseChars else []) ++
  (if o.charset.numbers then numberChars else []) ++
  (if o.charset.special then specialChars else [])

/-- State threaded through `ensure_minimum_requirements`: the password
buffer, the `modifiable` flag array, and the index of the next unread
random byte. -/
structure RepairState where
  pwd : List Char
  mod : List Bool
  n : Nat
deriving DecidableEq

/-- One `require_all_types` repair step in `ensure_minimum_requirements`:
if the category is selected and absent, overwrite the first modifiable
position with a fresh draw from the (unfiltered) category alphabet and
mark it consumed; if no modifiable position remains the scan finds
nothing and the password is left unchanged. -/
def repairTypeStep (flag : Bool) (charSet : List Char) (r : Nat → Nat)
    (s : RepairState) : RepairState :=
  if flag && !(contains_char_type s.pwd charSet) then
    match s.mod.findIdx? (fun b => b) with
    | some i =>
        { pwd := s.pwd.set i (get_random_char_from_set charSet (drawByte r s.n))
          mod := s.mod.set i false
          n := s.n + 1 }
    | none => s
  else s

/-- The `while (count < min)` repair loop of `ensure_minimum_requirements`
(used for both `min_numbers` and `min_special`).  State: password,
modifiable flags, random counter, and the loop's own running `count`
(initialised once from `count_char_type` and incremented per overwrite —
the C code never recounts).  Each iteration of the C loop scans for the
first modifiable position; if none exists while `count < min` the C body
changes nothing and the while loop never terminates — that stuck case is
returned as `none`.  Every productive iteration consumes one of the at
most `pwd.length` modifiable positions, so any fuel exceeding
`pwd.length` makes fuel exhaustion unreachable and `none` means exactly
that the C loop diverges. -/
def minCountLoop (charSet : List Char) (minCount : Nat) (r : Nat → Nat) :
    Nat → RepairState × Nat → Option (RepairState × Nat)
  | 0, _ => none
  | fuel + 1, (s, count) =>
    if count < minCount then
      match s.mod.findIdx? (fun b => b) with
      | some i =>
          minCountLoop charSet minCount r fuel
            ({ pwd := s.pwd.set i (get_random_char_from_set charSet (drawByte r s.n))
               mod := s.mod.set i false
               n := s.n + 1 }, count + 1)
      | none => none
    else some (s, count)

/-- The stuck configuration of the C `while` loop is absorbing: once the
count is short and no modifiable position remains, no amount of fuel
produces a result — the C loop runs forever. -/
def minCountLoopDiverges (charSet : List Char) (minCount : Nat) (r : Nat → Nat)
    (st : RepairState × Nat) : Prop :=
  ∀ fuel, minCountLoop charSet minCount r fuel st = none

/-- `ensure_minimum_requirements` from password.c.  `allocOk` is the
outcome of the `calloc` for the `modifiable` array (on failure the C
function returns with the password unchanged).  Returns the final
password and random counter, or `none` when one of the two while loops
diverges. -/
def ensure_minimum_requirements (pwd0 : List Char) (o : PasswordOptions)
    (r : Nat → Nat) (n0 : Nat) (allocOk : Bool) : Option (List Char × Nat) :=
  if pwd0.length = 0 then some (pwd0, n0)
  else if !allocOk then some (pwd0, n0)
  else
    let s0 : RepairState := ⟨pwd0, List.replicate pwd0.length true, n0⟩
    let s1 : RepairState :=
      if o.require_all_types then
        repairTypeStep o.charset.special specialChars r
          (repairTypeStep o.charset.numbers numberChars r
            (repairTypeStep o.charset.uppercase uppercaseChars r
              (repairTypeStep o.charset.lowercase lowercaseChars r s0)))
      else s0
    let afterNumbers : Option (RepairState × Nat) :=
      if o.min_numbers > 0 then
        minCountLoop numberChars o.min_numbers r (pwd0.length + 1)
          (s1, count_char_type s1.pwd numberChars)
      else some (s1, 0)
    match afterNumbers with
    | none => none
    | some (s2, _) =>
      if o.min_special > 0 then
        match minCountLoop specialChars o.min_special r (pwd0.length + 1)
            (s2, count_char_type s2.pwd specialChars) with
        | none => none
        | some (s3, _) => some (s3.pwd, s3.n)
      else some (s2.pwd, s2.n)

/-- `get_strength_category` from password.c (thresholds from config.h). -/
def get_strength_category (score : Int) : String :=
  if score < 20 then "Very Weak"
  else if score < 40 then "Weak"
  else if score < 60 then "Fair"
  else if score < 75 then "Good"
  else if score < 90 then "Strong"
  else "Very Strong"

/-- A zero-initialised `PasswordResult` with the failure reason written to
its `strength` field — the shape of every error return in password.c. -/
def failResult (reason : String) : PasswordResult :=
  { password := none, length := 0, strength_score := 0, strength := some reason }

/-- The metadata block shared by the tails of `generate_password` and
`generate_password_from_pattern`: `e pwd o` stands for the C expression
`(int)((calculate_entropy(...) / 128.0) * 100)`; the clamping to [0,100]
and the category lookup are from the source. -/
def finishResult (e : List Char → PasswordOptions → Int)
    (pwd : List Char) (o : PasswordOptions) : PasswordResult :=
  let raw := e pwd o
  let score := if raw > 100 then 100 else if raw < 0 then 0 else raw
  { password := some pwd
    length := o.length
    strength_score := score
    strength := some (get_strength_category score) }

/-- The uniform draw loop of `generate_password`: position `i` consumes
stream byte `i` and selects `pool[byte % pool_size]`. -/
def initialDraw (o : PasswordOptions) (r : Nat → Nat) (pool : List Char) :
    List Char :=
  (List.range o.length).map
    (fun i => pool.getD (drawByte r i % pool.length) nulChar)

/-- Tail of `generate_password` after the pool has been assembled and
filtered: the empty-pool check, the password `calloc` (allocation index
`k`), the uniform draw loop, and the conditional repair pass. -/
def generateCore (o : PasswordOptions) (r : Nat → Nat) (a : Nat → Bool)
    (e : List Char → PasswordOptions → Int) (pool : List Char) (k : Nat) :
    Option PasswordResult :=
  if pool.length = 0 then some (failResult "No character set selected")
  else if !(a k) then some (failResult "Memory error")
  else if o.require_all_types || o.min_numbers > 0 || o.min_special > 0 then
    match ensure_minimum_requirements (initialDraw o r pool) o r o.length
        (a (k + 1)) with
    | none => none
    | some (pwd, _) => some (finishResult e pwd o)
  else some (finishResult e (initialDraw o r pool) o)

/-- `generate_password` from password.c.  `o?` is the (possibly NULL)
options pointer, `r` the random byte stream, `a` the allocation oracle
(consulted in program order: pool `SecureString` init, then the filtered
pool init when taken, then the password `calloc`, then the `modifiable`
`calloc`), `e` the entropy-score oracle.  The outer `Option` is `none`
exactly when the repair pass diverges (see `minCountLoop`). -/
def generate_password (o? : Option PasswordOptions) (r : Nat → Nat)
    (a : Nat → Bool) (e : List Char → PasswordOptions → Int) :
    Option PasswordResult :=
  match o? with
  | none => some (failResult "Invalid options")
  | some o =>
    if !validate_options o then some (failResult "Invalid options")
    else if !(a 0) then some (failResult "Memory error")
    else
      let raw := buildRawPool o
      if o.charset.avoid_ambiguous && raw.length > 0 then
        if !(a 1) then some (failResult "Memory error")
        else generateCore o r a e
          (raw.filter (fun c => !(ambiguousChars.contains c))) 2
      else generateCore o r a e raw 1

/-! ## Pattern-based generation (password.c) -/

/-- The `switch (pattern_char)` of `generate_password_from_pattern`. -/
def charSetForCode (c : Char) : Option (List Char) :=
  if c = 'l' then some lowercaseChars
  else if c = 'U' then some uppercaseChars
  else if c = 'n' then some numberChars
  else if c = 's' then some specialChars
  else none

/-- The per-position loop of `generate_password_from_pattern`: on the first
unrecognised code the C code frees the partial buffer and returns the
error shown; a NUL draw (impossible for the four fixed alphabets, but
checked by the source) aborts likewise. -/
def patternBuild (r : Nat → Nat) : List Char → Nat → Except String (List Char)
  | [], _ => .ok []
  | c :: rest, n =>
    match charSetForCode c with
    | none => .error "Invalid pattern character"
    | some charSet =>
      let g := get_random_char_from_set charSet (drawByte r n)
      if g = nulChar then .error "Failed to generate character"
      else
        match patternBuild r rest (n + 1) with
        | .error s => .error s
        | .ok tail => .ok (g :: tail)

/-- The options record `generate_password_from_pattern` rebuilds for its
entropy computation: `password_options_init` with the length and the
category flags inferred from which codes occur in the pattern. -/
def patternOptions (pattern : List Char) : PasswordOptions :=
  { password_options_init with
    length := pattern.length
    charset :=
      { lowercase := pattern.contains 'l'
        uppercase := pattern.contains 'U'
        numbers := pattern.contains 'n'
        special := pattern.contains 's'
        avoid_ambiguous := false } }

/-- `generate_password_from_pattern` from password.c.  `pattern?` is the
(possibly NULL) pattern pointer; `a 0` is the password `calloc`. -/
def generate_password_from_pattern (pattern? : Option (List Char))
    (r : Nat → Nat) (a : Nat → Bool)
    (e : List Char → PasswordOptions → Int) : PasswordResult :=
  match pattern? with
  | none => failResult "Invalid pattern"
  | some pattern =>
    if pattern.length = 0 then failResult "Invalid pattern"
    else if !(a 0) then failResult "Memory error"
    else
      match patternBuild r pattern 0 with
      | .error s => failResult s
      | .ok pwd => finishResult e pwd (patternOptions pattern)

/-! ## Claims C1–C3: the repair pass -/

/-- C1 failing input: lowercase+digits pool, `min_numbers = 2`, no other
constraint; the stream first draws the digit `'0'` (pool index 26) and
then seven letters. -/
def c1Options : PasswordOptions :=
  { length := 8
    charset := { lowercase := true, uppercase := false, numbers := true,
                 special := false, avoid_ambiguous := false }
    require_all_types := false, min_numbers := 2, min_special := 0 }

def c1Stream : Nat → Nat := fun n => [26, 1, 2, 3, 4, 5, 6, 7, 5].getD n 0

/-- C1: refuted on the code.  With the valid options `c1Options`
(`min_numbers = 2`) and the stream `c1Stream`, the draw phase yields
`"0bcdefgh"` (one digit); the repair loop then overwrites position 0 —
the position already holding the only digit — with the digit `'5'` and
counts that replacement, so the returned password `"5bcdefgh"` contains
only 1 digit, below the required minimum of 2. -/
theorem c1_min_numbers_violated :
    validate_options c1Options = true ∧
    (generate_password (some c1Options) c1Stream (fun _ => true) (fun _ _ => 0)).map
      (fun res => res.password.map (fun p => count_char_type p numberChars)) =
      some (some 1) ∧
    1 < c1Options.min_numbers := by
  refine ⟨by decide, by decide, by decide⟩

/-- C2 failing input: lowercase+digits with `avoid_ambiguous` and
`min_numbers = 1`; the all-zero stream yields `"aaaaaaaa"` from the
filtered pool, and the repair loop then draws from the *unfiltered* digit
alphabet `"0123456789"`, whose index 0 is the ambiguous `'0'`. -/
def c2Options : PasswordOptions :=
  { length := 8
    charset := { lowercase := true, uppercase := false, numbers := true,
                 special := false, avoid_ambiguous := true }
    require_all_types := false, min_numbers := 1, min_special := 0 }

/-- C2: refuted on the code.  With `avoid_ambiguous` set, the password
returned for `c2Options` under the all-zero stream is `"0aaaaaaa"`, which
contains the ambiguous character `'0'` — the repair pass draws from the
unfiltered category alphabet. -/
theorem c2_repair_reintroduces_ambiguous :
    c2Options.charset.avoid_ambiguous = true ∧
    validate_options c2Options = true ∧
    (generate_password (some c2Options) (fun _ => 0) (fun _ => true) (fun _ _ => 0)).map
      (fun res => res.password.map
        (fun p => p.any (fun c => ambiguousChars.contains c))) =
      some (some true) := by
  refine ⟨by decide, by decide, by decide⟩

/-- Any character of a password produced by `generateCore` when the repair
pass is disabled is drawn from the pool handed to `generateCore`. -/
theorem generateCore_mem_pool (o : PasswordOptions) (r : Nat → Nat)
    (a : Nat → Bool) (e : List Char → PasswordOptions → Int)
    (pool : List Char) (k : Nat) (res : PasswordResult) (pwd : List Char)
    (c : Char)
    (hnorep : (o.require_all_types || decide (o.min_numbers > 0) ||
      decide (o.min_special > 0)) = false)
    (hres : generateCore o r a e pool k = some res)
    (hpwd : res.password = some pwd) (hc : c ∈ pwd) : c ∈ pool := by
  unfold generateCore at hres
  split at hres
  · cases hres; simp [failResult] at hpwd
  · split at hres
    · cases hres; simp [failResult] at hpwd
    · rw [hnorep] at hres
      simp only [Bool.false_eq_true, if_false] at hres
      cases hres
      simp only [finishResult] at hpwd
      cases hpwd
      simp only [initialDraw, List.mem_map, List.mem_range] at hc
      obtain ⟨i, _, hi⟩ := hc
      have hpos : 0 < pool.length := by omega
      have hlt : drawByte r i % pool.length < pool.length := Nat.mod_lt _ hpos
      simp only [List.getD_eq_getElem?_getD, List.getElem?_eq_getElem hlt,
        Option.getD_some] at hi
      exact hi ▸ List.getElem_mem hlt

/-- C2 amended: when `avoid_ambiguous` is set and no repair phase runs
(`require_all_types` unset and both minimum counts zero), the returned
password never contains any of `l,I,1,O,0`: every character comes from
the ambiguous-filtered pool.  (The repair phase, when it runs, draws from
the unfiltered category alphabets and can reintroduce these characters,
as `c2_repair_reintroduces_ambiguous` shows.) -/
theorem c2_amended_no_ambiguous_without_repair (o : PasswordOptions)
    (r : Nat → Nat) (a : Nat → Bool) (e : List Char → PasswordOptions → Int)
    (res : PasswordResult) (pwd : List Char) (c : Char)
    (hav : o.charset.avoid_ambiguous = true)
    (hreq : o.require_all_types = false)
    (hmn : o.min_numbers = 0) (hms : o.min_special = 0)
    (hres : generate_password (some o) r a e = some res)
    (hpwd : res.password = some pwd) (hc : c ∈ pwd) :
    c ∉ ambiguousChars := by
  simp only [generate_password] at hres
  split at hres
  · cases hres; simp [failResult] at hpwd
  · split at hres
    · cases hres; simp [failResult] at hpwd
    · rw [hav] at hres
      split at hres
      · split at hres
        · cases hres; simp [failResult] at hpwd
        · have hmem : c ∈ (buildRawPool o).filter
              (fun ch => !(ambiguousChars.contains ch)) := by
            refine generateCore_mem_pool o r a e _ 2 res pwd c ?_ hres hpwd hc
            simp [hreq, hmn, hms]
          simpa using (List.mem_filter.mp hmem).2
      · rename_i hcond
        have hz : (buildRawPool o).length = 0 := by
          by_contra hnz
          apply hcond
          simp only [Bool.true_and, decide_eq_true_eq]
          exact Nat.pos_of_ne_zero hnz
        unfold generateCore at hres
        rw [if_pos hz] at hres
        cases hres; simp [failResult] at hpwd

/-- Witness for `c2_amended_no_ambiguous_without_repair` at concrete
inputs: the repair-free configuration over lowercase+digits with
`avoid_ambiguous` and the all-zero stream returns `"aaaaaaaa"`, and `'a'`
is indeed not ambiguous. -/
theorem c2_amended_witness : 'a' ∉ ambiguousChars := by
  refine c2_amended_no_ambiguous_without_repair
    { length := 8
      charset := { lowercase := true, uppercase := false, numbers := true,
                   special := false, avoid_ambiguous := true }
      require_all_types := false, min_numbers := 0, min_special := 0 }
    (fun _ => 0) (fun _ => true) (fun _ _ => 0)
    (finishResult (fun _ _ => 0) (List.replicate 8 'a')
      { length := 8
        charset := { lowercase := true, uppercase := false, numbers := true,
                     special := false, avoid_ambiguous := true }
        require_all_types := false, min_numbers := 0, min_special := 0 })
    (List.replicate 8 'a') 'a' rfl rfl rfl rfl (by decide) (by decide)
    (by decide)

/-- C3 failing input: all four categories, `require_all_types`,
`min_numbers = 4`, `min_special = 4`, length 8 — a valid configuration —
under the all-zero stream. -/
def c3Options : PasswordOptions :=
  { length := 8
    charset := { lowercase := true, uppercase := true, numbers := true,
                 special := true, avoid_ambiguous := false }
    require_all_types := true, min_numbers := 4, min_special := 4 }

/-- C3: refuted on the code.  For the valid options `c3Options` under the
all-zero stream, the draw yields `"aaaaaaaa"`; the require-all repairs
consume positions 0–2 (`'A'`, `'0'`, `'!'`), the `min_numbers` loop
consumes positions 3–5, and the `min_special` loop consumes positions 6
and 7 — after which its count is 3 < 4 with no modifiable position left,
so the C `while` loop spins forever: the embedded generator reports the
divergence (`none`), and the stuck configuration is absorbing for every
fuel bound. -/
theorem c3_repair_loop_diverges :
    validate_options c3Options = true ∧
    generate_password (some c3Options) (fun _ => 0) (fun _ => true)
      (fun _ _ => 0) = none ∧
    minCountLoopDiverges specialChars 4 (fun _ => 0)
      (⟨['A', '0', '!', '0', '0', '0', '!', '!'], List.replicate 8 false, 17⟩, 3) := by
  refine ⟨by decide, by decide, ?_⟩
  intro fuel
  cases fuel with
  | zero => rfl
  | succ n => rfl

/-! ## Claims C5–C6: pattern generation and the all-or-nothing contract -/

theorem get_random_char_mem (cs : List Char) (b : Nat) (h : cs ≠ []) :
    get_random_char_from_set cs b ∈ cs := by
  unfold get_random_char_from_set
  rw [if_neg (fun hz => h (List.length_eq_zero.mp hz))]
  have hlt : b % cs.length < cs.length := Nat.mod_lt _ (List.length_pos.mpr h)
  simp only [List.getD_eq_getElem?_getD, List.getElem?_eq_getElem hlt,
    Option.getD_some]
  exact List.getElem_mem hlt

/-- Each of the four pattern sub-alphabets is non-empty and NUL-free. -/
theorem charSetForCode_sound (c : Char) (cs : List Char)
    (h : charSetForCode c = some cs) : cs ≠ [] ∧ nulChar ∉ cs := by
  unfold charSetForCode at h
  split_ifs at h <;> cases h <;> exact ⟨by decide, by decide⟩

/-- When every pattern code is recognised, the per-position loop of
`generate_password_from_pattern` succeeds and produces one character per
code, drawn from that code's sub-alphabet. -/
theorem patternBuild_ok (r : Nat → Nat) :
    ∀ (pattern : List Char) (n : Nat),
    (∀ c ∈ pattern, (charSetForCode c).isSome) →
    ∃ pwd, patternBuild r pattern n = .ok pwd ∧
      pwd.length = pattern.length ∧
      ∀ i, i < pattern.length →
        pwd.getD i nulChar ∈ (charSetForCode (pattern.getD i nulChar)).getD []
  | [], n, _ => ⟨[], rfl, rfl, by simp⟩
  | c :: rest, n, hall => by
    obtain ⟨cs, hcs⟩ := Option.isSome_iff_exists.mp (hall c (by simp))
    obtain ⟨hne, hnul⟩ := charSetForCode_sound c cs hcs
    have hg : get_random_char_from_set cs (drawByte r n) ∈ cs :=
      get_random_char_mem cs _ hne
    obtain ⟨tail, htail, hlen, hmem⟩ :=
      patternBuild_ok r rest (n + 1) (fun x hx => hall x (by simp [hx]))
    have hgnul : ¬(get_random_char_from_set cs (drawByte r n) = nulChar) :=
      fun he => hnul (he ▸ hg)
    refine ⟨get_random_char_from_set cs (drawByte r n) :: tail, ?_, by simp [hlen], ?_⟩
    · simp only [patternBuild, hcs]
      rw [if_neg hgnul, htail]
    · intro i hi
      cases i with
      | zero => simpa [hcs] using hg
      | succ j =>
        have := hmem j (by simpa using hi)
        simpa using this

/-- An unrecognised code makes the per-position loop fail (either at that
code or at an earlier failure), never returning a partial password. -/
theorem patternBuild_error (r : Nat → Nat) :
    ∀ (pattern : List Char) (n : Nat),
    (∃ c ∈ pattern, charSetForCode c = none) →
    ∃ s, patternBuild r pattern n = .error s
  | [], _, hbad => by simp at hbad
  | c :: rest, n, hbad => by
    unfold patternBuild
    cases hcs : charSetForCode c with
    | none => exact ⟨_, rfl⟩
    | some cs =>
      simp only []
      split
      · exact ⟨_, rfl⟩
      · have hrest : ∃ x ∈ rest, charSetForCode x = none := by
          obtain ⟨x, hx, hxn⟩ := hbad
          rcases List.mem_cons.mp hx with h | h
          · exact absurd hxn (by rw [h, hcs]; simp)
          · exact ⟨x, h, hxn⟩
        obtain ⟨s, hs⟩ := patternBuild_error r rest (n + 1) hrest
        rw [hs]
        exact ⟨s, rfl⟩

/-- The only error strings the per-position pattern loop produces. -/
theorem patternBuild_error_msgs (r : Nat → Nat) :
    ∀ (pattern : List Char) (n : Nat) (s : String),
    patternBuild r pattern n = .error s →
    s = "Invalid pattern character" ∨ s = "Failed to generate character"
  | [], _, s, h => by simp [patternBuild] at h
  | c :: rest, n, s, h => by
    simp only [patternBuild] at h
    split at h
    · cases h; exact Or.inl rfl
    · split at h
      · cases h; exact Or.inr rfl
      · split at h
        · rename_i s' hs'
          cases h
          exact patternBuild_error_msgs r rest (n + 1) s hs'
        · cases h

/-- C5: for a non-empty pattern, (a) if every code is one of `l,U,n,s`
(and the password buffer allocation succeeds) the call returns a password
of the pattern's length whose i-th character lies in the sub-alphabet
named by the i-th code, and (b) if any code is unrecognised the password
field of the returned failure result is empty — no partial password. -/
theorem c5_pattern_generation (pattern : List Char) (r : Nat → Nat)
    (a : Nat → Bool) (e : List Char → PasswordOptions → Int)
    (hne : pattern ≠ []) :
    ((a 0 = true) → (∀ c ∈ pattern, (charSetForCode c).isSome) →
      ∃ pwd, (generate_password_from_pattern (some pattern) r a e).password = some pwd ∧
        pwd.length = pattern.length ∧
        ∀ i, i < pattern.length →
          pwd.getD i nulChar ∈ (charSetForCode (pattern.getD i nulChar)).getD []) ∧
    ((∃ c ∈ pattern, charSetForCode c = none) →
      (generate_password_from_pattern (some pattern) r a e).password = none) := by
  have hlen : ¬(pattern.length = 0) := by simpa [List.length_eq_zero] using hne
  constructor
  · intro ha hall
    obtain ⟨pwd, hok, hl, hm⟩ := patternBuild_ok r pattern 0 hall
    refine ⟨pwd, ?_, hl, hm⟩
    simp only [generate_password_from_pattern]
    rw [if_neg hlen, if_neg (by simp [ha]), hok]
    rfl
  · intro hbad
    obtain ⟨s, hs⟩ := patternBuild_error r pattern 0 hbad
    simp only [generate_password_from_pattern]
    rw [if_neg hlen]
    split
    · rfl
    · rw [hs]; rfl

/-- Witness for `c5_pattern_generation`: `"llUnss"` (all codes valid)
yields a 6-character positionally-typed password, and `"llXnss"`
(invalid code `'X'`) yields an empty password field. -/
theorem c5_pattern_generation_witness :
    (∃ pwd, (generate_password_from_pattern (some "llUnss".toList) (fun _ => 0)
        (fun _ => true) (fun _ _ => 0)).password = some pwd ∧
      pwd.length = ("llUnss".toList).length ∧
      ∀ i, i < ("llUnss".toList).length →
        pwd.getD i nulChar ∈
          (charSetForCode (("llUnss".toList).getD i nulChar)).getD []) ∧
    (generate_password_from_pattern (some "llXnss".toList) (fun _ => 0)
      (fun _ => true) (fun _ _ => 0)).password = none := by
  constructor
  · exact (c5_pattern_generation "llUnss".toList (fun _ => 0) (fun _ => true)
      (fun _ _ => 0) (by decide)).1 rfl (by decide)
  · exact (c5_pattern_generation "llXnss".toList (fun _ => 0) (fun _ => true)
      (fun _ _ => 0) (by decide)).2 ⟨'X', by decide, by decide⟩

/-- The six labels `get_strength_category` can produce. -/
def strengthCategoryLabels : List String :=
  ["Very Weak", "Weak", "Fair", "Good", "Strong", "Very Strong"]

/-- The failure reasons of `generate_password`. -/
def generateFailureMessages : List String :=
  ["Invalid options", "Memory error", "No character set selected"]

/-- The failure reasons of `generate_password_from_pattern`. -/
def patternFailureMessages : List String :=
  ["Invalid pattern", "Memory error", "Invalid pattern character",
   "Failed to generate character"]

theorem get_strength_category_mem (s : Int) :
    get_strength_category s ∈ strengthCategoryLabels := by
  unfold get_strength_category strengthCategoryLabels
  split_ifs <;> simp

/-- The shape every error return of password.c has: no password, and the
reason string in the strength field. -/
theorem failResult_shape (msg : String) (msgs : List String) (hm : msg ∈ msgs) :
    ((failResult msg).password = none →
      ∃ s, (failResult msg).strength = some s ∧ s ∈ msgs) ∧
    ((failResult msg).password.isSome →
      ∃ s, (failResult msg).strength = some s ∧ s ∈ strengthCategoryLabels) := by
  exact ⟨fun _ => ⟨msg, rfl, hm⟩, fun hs => by simp [failResult] at hs⟩

/-- The shape every success return of password.c has: a password, and a
category label in the strength field. -/
theorem finishResult_shape (e : List Char → PasswordOptions → Int)
    (pwd : List Char) (o : PasswordOptions) (msgs : List String) :
    ((finishResult e pwd o).password = none →
      ∃ s, (finishResult e pwd o).strength = some s ∧ s ∈ msgs) ∧
    ((finishResult e pwd o).password.isSome →
      ∃ s, (finishResult e pwd o).strength = some s ∧
        s ∈ strengthCategoryLabels) := by
  constructor
  · intro h; simp [finishResult] at h
  · intro _
    exact ⟨get_strength_category _, rfl, get_strength_category_mem _⟩

/-- C6: generation is all-or-nothing.  Whenever `generate_password`
returns (NULL options, invalid options, any allocation failure, empty
pool — and likewise `generate_password_from_pattern` with its pattern
errors), a result with no password carries one of the fixed
human-readable reason strings in its strength field, and a result that
does carry a password carries a strength-category label, never a failure
reason; both functions are total Lean functions, so no failure aborts. -/
theorem c6_all_or_nothing :
    (∀ (o? : Option PasswordOptions) (r : Nat → Nat) (a : Nat → Bool)
        (e : List Char → PasswordOptions → Int) (res : PasswordResult),
      generate_password o? r a e = some res →
        (res.password = none →
          ∃ s, res.strength = some s ∧ s ∈ generateFailureMessages) ∧
        (res.password.isSome →
          ∃ s, res.strength = some s ∧ s ∈ strengthCategoryLabels)) ∧
    (∀ (p? : Option (List Char)) (r : Nat → Nat) (a : Nat → Bool)
        (e : List Char → PasswordOptions → Int),
      ((generate_password_from_pattern p? r a e).password = none →
        ∃ s, (generate_password_from_pattern p? r a e).strength = some s ∧
          s ∈ patternFailureMessages) ∧
      ((generate_password_from_pattern p? r a e).password.isSome →
        ∃ s, (generate_password_from_pattern p? r a e).strength = some s ∧
          s ∈ strengthCategoryLabels)) := by
  constructor
  · intro o? r a e res hres
    cases o? with
    | none =>
      cases hres
      exact failResult_shape _ _ (by decide)
    | some o =>
      simp only [generate_password] at hres
      split at hres
      · cases hres; exact failResult_shape _ _ (by decide)
      · split at hres
        · cases hres; exact failResult_shape _ _ (by decide)
        · have hcore : ∀ (pool : List Char) (k : Nat),
              generateCore o r a e pool k = some res →
              (res.password = none →
                ∃ s, res.strength = some s ∧ s ∈ generateFailureMessages) ∧
              (res.password.isSome →
                ∃ s, res.strength = some s ∧ s ∈ strengthCategoryLabels) := by
            intro pool k hc
            unfold generateCore at hc
            split at hc
            · cases hc; exact failResult_shape _ _ (by decide)
            · split at hc
              · cases hc; exact failResult_shape _ _ (by decide)
              · split at hc
                · split at hc
                  · cases hc
                  · rename_i pwd snd heq
                    cases hc
                    exact finishResult_shape e pwd o _
                · cases hc
                  exact finishResult_shape e _ o _
          split at hres
          · split at hres
            · cases hres; exact failResult_shape _ _ (by decide)
            · exact hcore _ 2 hres
          · exact hcore _ 1 hres
  · intro p? r a e
    cases p? with
    | none => exact failResult_shape _ _ (by decide)
    | some pattern =>
      simp only [generate_password_from_pattern]
      split
      · exact failResult_shape _ _ (by decide)
      · split
        · exact failResult_shape _ _ (by decide)
        · split
          · rename_i s hs
            rcases patternBuild_error_msgs r pattern 0 s hs with h | h <;>
              subst h <;> exact failResult_shape _ _ (by decide)
          · exact finishResult_shape e _ _ _

/-- Witness for `c6_all_or_nothing` at concrete inputs: NULL options
produce the reason `"Invalid options"` with no password, and a valid
default-style generation carries a category label. -/
theorem c6_all_or_nothing_witness :
    (∃ s, (failResult "Invalid options").strength = some s ∧
      s ∈ generateFailureMessages) ∧
    (∃ s, (generate_password_from_pattern (some "llUnss".toList) (fun _ => 0)
        (fun _ => true) (fun _ _ => 0)).strength = some s ∧
      s ∈ strengthCategoryLabels) := by
  constructor
  · exact ((c6_all_or_nothing.1 none (fun _ => 0) (fun _ => true) (fun _ _ => 0)
      (failResult "Invalid options") rfl).1 rfl)
  · exact ((c6_all_or_nothing.2 (some "llUnss".toList) (fun _ => 0) (fun _ => true)
      (fun _ _ => 0)).2 (by decide))

/-! ## Security assessment engine (security.c)

C character classification in the default locale (`islower`, `isupper`,
`isdigit`, `isalpha`, `tolower` applied to `unsigned char` values). -/

def isLowerChar (c : Char) : Bool := 97 ≤ c.toNat && c.toNat ≤ 122

def isUpperChar (c : Char) : Bool := 65 ≤ c.toNat && c.toNat ≤ 90

def isDigitChar (c : Char) : Bool := 48 ≤ c.toNat && c.toNat ≤ 57

def isAlphaChar (c : Char) : Bool := isLowerChar c || isUpperChar c

def toLowerChar (c : Char) : Char :=
  if isUpperChar c then Char.ofNat (c.toNat + 32) else c

/-- `calculate_strength_score` from security.c, called with
`length = strlen(password)`. -/
def calculate_strength_score (password : List Char) : Nat :=
  if password.length < MIN_PASSWORD_LENGTH then 0
  else
    let lengthScore : Nat :=
      if password.length ≥ 12 then 40
      else if password.length ≥ 10 then 30
      else if password.length ≥ 8 then 20
      else 10
    let hasLower := password.any isLowerChar
    let hasUpper := password.any isUpperChar
    let hasDigit := password.any isDigitChar
    let hasOther := password.any
      (fun c => !(isLowerChar c) && !(isUpperChar c) && !(isDigitChar c))
    let varietyCount := (if hasLower then 1 else 0) + (if hasUpper then 1 else 0) +
      (if hasDigit then 1 else 0) + (if hasOther then 1 else 0)
    let varietyScore : Nat :=
      if varietyCount = 4 then 40
      else if varietyCount = 3 then 30
      else if varietyCount = 2 then 20
      else if varietyCount = 1 then 10
      else 0
    let middleScore : Nat :=
      if (List.range password.length).any (fun i =>
          decide (1 ≤ i) && decide (i < password.length - 1) &&
          !(isAlphaChar (password.getD i nulChar))) then 10 else 0
    let bonusScore : Nat :=
      if decide (password.length ≥ 8) && hasLower && hasUpper && hasDigit
      then 10 else 0
    let total := lengthScore + varietyScore + middleScore + bonusScore
    if total > 100 then 100 else total

/-! ### strstr and the weak-pattern scans -/

/-- `needle` matches at the head of `hay`. -/
def matchesAt : List Char → List Char → Bool
  | [], _ => true
  | _ :: _, [] => false
  | a :: as, b :: bs => a == b && matchesAt as bs

/-- `strstr(hay, needle) != NULL`. -/
def strContains : List Char → List Char → Bool
  | [], needle => matchesAt needle []
  | c :: t, needle => matchesAt needle (c :: t) || strContains t needle

/-- The static weak-pattern table of security.c (pattern fields only). -/
def weakPatternTable : List (List Char) :=
  ["123", "abc", "qwerty", "password", "admin", "letmein", "welcome",
   "monkey", "dragon", "baseball", "football", "mustang", "master",
   "hello", "secret", "asdf", "zxcv", "111", "aaa", "000"].map String.toList

def SIZE_T_MOD : Nat := 2 ^ 64

/-- The `size_t` loop bound `pass_len - 2` used by the sequential-run and
repeated-character scans: unsigned subtraction wraps for `pass_len < 2`. -/
def seqScanBound (passLen : Nat) : Nat := (passLen + SIZE_T_MOD - 2) % SIZE_T_MOD

/-- The numeric/alphabetic three-in-a-row test of `check_weak_patterns`
(ascending or descending, alphabetic comparison after `tolower`). -/
def seqStep (c1 c2 c3 : Char) : Bool :=
  (isDigitChar c1 && isDigitChar c2 && isDigitChar c3 &&
    ((c1.toNat + 1 == c2.toNat && c2.toNat + 1 == c3.toNat) ||
     (c1.toNat == c2.toNat + 1 && c2.toNat == c3.toNat + 1))) ||
  (isAlphaChar c1 && isAlphaChar c2 && isAlphaChar c3 &&
    (((toLowerChar c1).toNat + 1 == (toLowerChar c2).toNat &&
      (toLowerChar c2).toNat + 1 == (toLowerChar c3).toNat) ||
     ((toLowerChar c1).toNat == (toLowerChar c2).toNat + 1 &&
      (toLowerChar c2).toNat == (toLowerChar c3).toNat + 1)))

/-- The three-identical-characters test of `check_weak_patterns`. -/
def repeatStep (c1 c2 c3 : Char) : Bool := c1 == c2 && c1 == c3

/-- One of the two scan loops of `check_weak_patterns`: iterate `i` from
`0` while `i < bound`, reading `buf[i]`, `buf[i+1]`, `buf[i+2]` each
round.  `buf` is the actual allocation (the password characters plus the
terminating NUL); a read past it is undefined behaviour, reported as
`none`.  Called with `fuel = bound`, so the fuel-exhaustion `none` at
zero fuel is reachable only together with `i < bound`, i.e. never on the
in-bounds runs. -/
def scanTriples (buf : List Char) (bound : Nat)
    (step : Char → Char → Char → Bool) : Nat → Nat → Option Bool
  | 0, i => if i < bound then none else some false
  | fuel + 1, i =>
    if i < bound then
      match buf.get? i, buf.get? (i + 1), buf.get? (i + 2) with
      | some c1, some c2, some c3 =>
        if step c1 c2 c3 then some true
        else scanTriples buf bound step fuel (i + 1)
      | _, _, _ => none
    else some false

def keyboardRows : List (List Char) :=
  ["qwertyuiop", "asdfghjkl", "zxcvbnm", "1234567890"].map String.toList

/-- The keyboard-row check of `check_weak_patterns`: every 3-character
window of each row, forward and reversed, as a `strstr` needle. -/
def keyboardPatternHit (pwd : List Char) : Bool :=
  keyboardRows.any (fun row =>
    (List.range (row.length - 2)).any (fun i =>
      let pat := [row.getD i nulChar, row.getD (i + 1) nulChar,
                  row.getD (i + 2) nulChar]
      strContains pwd pat || strContains pwd pat.reverse))

/-- `check_weak_patterns` from security.c.  `none` means the function
commits undefined behaviour (an out-of-bounds read) on this input. -/
def check_weak_patterns (pwd : List Char) : Option Bool :=
  if weakPatternTable.any (fun pat => strContains pwd pat) then some true
  else
    let buf := pwd ++ [nulChar]
    let bound := seqScanBound pwd.length
    match scanTriples buf bound seqStep bound 0 with
    | none => none
    | some true => some true
    | some false =>
      match scanTriples buf bound repeatStep bound 0 with
      | none => none
      | some true => some true
      | some false => some (keyboardPatternHit pwd)

/-! ### Dictionary check -/

/-- The static dictionary of security.c (93 words). -/
def dictionaryWords : List (List Char) :=
  ["password", "123456", "12345678", "1234", "qwerty",
   "12345", "dragon", "pussy", "baseball", "football",
   "letmein", "monkey", "696969", "abc123", "mustang",
   "michael", "shadow", "master", "jennifer", "111111",
   "2000", "jordan", "superman", "harley", "1234567",
   "fuckme", "hunter", "fuckyou", "trustno1", "ranger",
   "buster", "thomas", "tigger", "robert", "soccer",
   "fuck", "batman", "test", "pass", "killer",
   "hockey", "george", "charlie", "andrew", "michelle",
   "love", "sunshine", "jessica", "pepper", "daniel",
   "access", "123456789", "654321", "joshua", "maggie",
   "starwars", "silver", "william", "dallas", "yankees",
   "123123", "ashley", "666666", "hello", "amanda",
   "orange", "biteme", "freedom", "computer", "sexy",
   "thunder", "nicole", "ginger", "heather", "hammer",
   "summer", "corvette", "taylor", "fucker", "austin",
   "1111", "merlin", "matthew", "121212", "golfer",
   "cheese", "princess", "martin", "chelsea", "patrick",
   "richard", "diamond", "yellow", "bigdog", "secret",
   "asdfgh", "sparky", "cowboy"].map String.toList

/-- The leetspeak substitution table of `check_dictionary_words`. -/
def leetChar (c : Char) : Char :=
  if c = '4' then 'a'
  else if c = '3' then 'e'
  else if c = '0' then 'o'
  else if c = '1' then 'i'
  else if c = '5' then 's'
  else if c = '7' then 't'
  else if c = '@' then 'a'
  else if c = '$' then 's'
  else if c = '!' then 'i'
  else c

/-- `check_dictionary_words` from security.c: the password is lowercased
into a 256-byte buffer (truncating to 255 characters), checked against
the dictionary, then leet-normalised and re-checked.  (The `strdup`
failure path, which skips the leet re-check, is not modelled: the claim
set quantifies over password contents, not allocation behaviour.) -/
def check_dictionary_words (pwd : List Char) : Bool :=
  let passLen := min pwd.length 255
  let lower := (pwd.take passLen).map toLowerChar
  if dictionaryWords.any (fun w => strContains lower w) then true
  else
    let leet := lower.map leetChar
    dictionaryWords.any (fun w => strContains leet w)

/-- `SecurityAssessment` from security.h, restricted to the fields the
claims mention: the two `double` fields (entropy, crack time) are
dropped, the `category` enum is its numeric value 0..5, and
`is_duplicate` (always false here) is omitted. -/
structure SecurityAssessment where
  score : Nat
  category : Nat
  has_weak_pattern : Bool
  has_dictionary_word : Bool
deriving DecidableEq

/-- `assess_password_security` from security.c.  `none` propagates the
undefined behaviour of `check_weak_patterns` (reachable for length-1
passwords, since only length 0 is rejected).  The C scores are `int` but
provably stay in [0,100], so `Nat` with truncating division models the
arithmetic exactly; the final category is `score / 20` clamped to 5. -/
def assess_password_security (password : List Char) : Option SecurityAssessment :=
  if password.length = 0 then
    some { score := 0, category := 0,
           has_weak_pattern := false, has_dictionary_word := false }
  else
    let score0 := calculate_strength_score password
    match check_weak_patterns password with
    | none => none
    | some weak =>
      let dict := check_dictionary_words password
      let s1 := if weak then score0 * 70 / 100 else score0
      let s2 := if dict then s1 * 60 / 100 else s1
      let s3 := min s2 100
      some { score := s3, category := min (s3 / 20) 5,
             has_weak_pattern := weak, has_dictionary_word := dict }

/-! ## Claim C4: score adjustment in `assess_password_security` -/

/-- The generation score→label table exactly as claim C4 words it
(numeric category codes 0..5 for VeryWeak..VeryStrong, thresholds
20/40/60/75/90 as in `get_strength_category`); compared against the
category the assessment code actually computes. -/
def specCategoryOfScore (s : Nat) : Nat :=
  if s < 20 then 0
  else if s < 40 then 1
  else if s < 60 then 2
  else if s < 75 then 3
  else if s < 90 then 4
  else 5

/-- C4: refuted as stated.  `assess_password_security` recomputes the
category as `score / 20` (clamped to 5), not from the generation table's
20/40/60/75/90 thresholds: the password `"aB1dYk9mQr2w"` is assessed
with adjusted score 90 and category 4 (Strong), while the claim's table
assigns score 90 the category 5 (Very Strong). -/
theorem c4_category_table_counterexample :
    (assess_password_security "aB1dYk9mQr2w".toList).map
      (fun r => (r.category, specCategoryOfScore r.score)) = some (4, 5) ∧
    (4 : Nat) ≠ 5 :=
  ⟨by decide, by decide⟩

/-- The penalty pipeline exactly as claim C4 words it: weak-pattern
penalty ×0.70 first with integer truncation, then dictionary penalty
×0.60 applied to the already-reduced score, then clamping to [0,100]
(the lower clamp is vacuous over `Nat`, as it is for the C `int`
values, which stay non-negative). -/
def adjustedScore (base : Nat) (weak dict : Bool) : Nat :=
  let s1 := if weak then base * 70 / 100 else base
  let s2 := if dict then s1 * 60 / 100 else s1
  min s2 100

/-- C4 amended: the adjusted score follows the claim's penalty pipeline
(pattern ×0.70 first, then dictionary ×0.60, clamp to [0,100]), but the
final strength category is recomputed as `score / 20` capped at
VeryStrong — thresholds 20/40/60/80 — not from the generation table's
20/40/60/75/90. -/
theorem c4_amended_score_adjustment (pwd : List Char)
    (res : SecurityAssessment)
    (hres : assess_password_security pwd = some res) :
    res.score = adjustedScore (calculate_strength_score pwd)
      res.has_weak_pattern res.has_dictionary_word ∧
    res.category = min (res.score / 20) 5 := by
  unfold assess_password_security at hres
  split at hres
  · rename_i hlen
    cases hres
    refine ⟨?_, by decide⟩
    simp [adjustedScore, calculate_strength_score, hlen, MIN_PASSWORD_LENGTH]
  · split at hres
    · cases hres
    · cases hres
      exact ⟨rfl, rfl⟩

/-- Witness for `c4_amended_score_adjustment` at the concrete password
`"aB1dYk9mQr2w"`, whose assessment is score 90, category 4, no flags. -/
theorem c4_amended_witness :
    (SecurityAssessment.mk 90 4 false false).score =
      adjustedScore (calculate_strength_score "aB1dYk9mQr2w".toList)
        (SecurityAssessment.mk 90 4 false false).has_weak_pattern
        (SecurityAssessment.mk 90 4 false false).has_dictionary_word ∧
    (SecurityAssessment.mk 90 4 false false).category =
      min ((SecurityAssessment.mk 90 4 false false).score / 20) 5 :=
  c4_amended_score_adjustment "aB1dYk9mQr2w".toList
    (SecurityAssessment.mk 90 4 false false) (by decide)

/-! ## Claim C8: the strength scoring formula -/

/-- Claim C8's length component `L` (in the length ≥ 8 regime). -/
def specLengthComponent (n : Nat) : Nat :=
  if 12 ≤ n then 40 else if 10 ≤ n then 30 else 20

/-- Claim C8's variety component `V`: 10 × number of character classes
present among lower/upper/digit/other. -/
def specVarietyComponent (p : List Char) : Nat :=
  10 * ((if p.any isLowerChar then 1 else 0) +
    (if p.any isUpperChar then 1 else 0) +
    (if p.any isDigitChar then 1 else 0) +
    (if p.any (fun c => !(isLowerChar c) && !(isUpperChar c) &&
        !(isDigitChar c)) then 1 else 0))

/-- Claim C8's middle bonus `M`: 10 if a non-alphabetic character occurs
strictly between the first and last position. -/
def specMiddleComponent (p : List Char) : Nat :=
  if (List.range p.length).any (fun i =>
      decide (0 < i) && decide (i + 1 < p.length) &&
      !(isAlphaChar (p.getD i nulChar))) then 10 else 0

/-- Claim C8's composite bonus `C`: 10 if lower, upper and digit are all
present. -/
def specCompositeComponent (p : List Char) : Nat :=
  if p.any isLowerChar && p.any isUpperChar && p.any isDigitChar
  then 10 else 0

/-- The scoring formula exactly as claim C8 words it. -/
def specStrengthScore (p : List Char) : Nat :=
  if p.length < 8 then 0
  else min 100 (specLengthComponent p.length + specVarietyComponent p +
    specMiddleComponent p + specCompositeComponent p)

theorem any_pointwise {α : Type} (l : List α) (f g : α → Bool)
    (h : ∀ x, f x = g x) : l.any f = l.any g := by
  induction l with
  | nil => rfl
  | cons a t ih => simp [List.any_cons, h a, ih]

/-- The C middle-position loop (`for i = 1; i < length - 1`) tests the
same index set as the claim's "strictly between first and last". -/
theorem middle_cond_eq (p : List Char) :
    ((List.range p.length).any fun i =>
      decide (1 ≤ i) && decide (i < p.length - 1) &&
      !(isAlphaChar (p.getD i nulChar))) =
    ((List.range p.length).any fun i =>
      decide (0 < i) && decide (i + 1 < p.length) &&
      !(isAlphaChar (p.getD i nulChar))) := by
  refine any_pointwise _ _ _ (fun i => ?_)
  have e1 : decide (1 ≤ i) = decide (0 < i) :=
    decide_eq_decide.mpr (by omega)
  have e2 : decide (i < p.length - 1) = decide (i + 1 < p.length) :=
    decide_eq_decide.mpr (by omega)
  rw [e1, e2]

/-- The C length-tier chain equals the claim's `L` once length ≥ 8. -/
theorem lengthComponent_eq (n : Nat) (h : ¬n < 8) :
    (if n ≥ 12 then 40 else if n ≥ 10 then 30 else if n ≥ 8 then 20 else 10)
      = specLengthComponent n := by
  unfold specLengthComponent
  split_ifs <;> omega

/-- The C `switch (variety_count)` equals the claim's `10 × count`. -/
theorem varietySwitch_eq (a b c d : Bool) :
    (if ((if a then 1 else 0) + (if b then 1 else 0) + (if c then 1 else 0) +
        (if d then 1 else 0) : Nat) = 4 then (40 : Nat)
     else if ((if a then 1 else 0) + (if b then 1 else 0) + (if c then 1 else 0) +
        (if d then 1 else 0) : Nat) = 3 then 30
     else if ((if a then 1 else 0) + (if b then 1 else 0) + (if c then 1 else 0) +
        (if d then 1 else 0) : Nat) = 2 then 20
     else if ((if a then 1 else 0) + (if b then 1 else 0) + (if c then 1 else 0) +
        (if d then 1 else 0) : Nat) = 1 then 10
     else 0)
      = 10 * ((if a then 1 else 0) + (if b then 1 else 0) + (if c then 1 else 0) +
        (if d then 1 else 0)) := by
  cases a <;> cases b <;> cases c <;> cases d <;> rfl

/-- The final `if (score > 100) score = 100` cap is `min 100`. -/
theorem capAt100_eq (t : Nat) : (if t > 100 then 100 else t) = min 100 t := by
  split_ifs <;> omega

set_option maxHeartbeats 800000 in
/-- C8: `calculate_strength_score` equals the claim's formula: 0 for
length < 8, else `min 100 (L + V + M + C)` with `L` the 40/30/20 length
tier, `V` ten points per present character class, `M` the
middle-position non-alphabetic bonus, and `C` the lower+upper+digit
bonus; in particular an 8-character all-lowercase password scores
20 + 10 = 30. -/
theorem c8_strength_score_formula (p : List Char) :
    calculate_strength_score p = specStrengthScore p := by
  by_cases hl : p.length < 8
  · simp [calculate_strength_score, specStrengthScore, MIN_PASSWORD_LENGTH, hl]
  · unfold calculate_strength_score specStrengthScore MIN_PASSWORD_LENGTH
    rw [if_neg hl, if_neg hl]
    simp only [specLengthComponent, specVarietyComponent, specMiddleComponent,
      specCompositeComponent]
    rw [middle_cond_eq, lengthComponent_eq p.length hl, varietySwitch_eq,
      capAt100_eq, decide_eq_true (Nat.not_lt.mp hl), Bool.true_and]
    rfl

/-! ## Claim C9: bounds safety of `check_weak_patterns` -/

/-- C9: refuted on the code — an out-of-bounds read exists.  For the
length-1 password `"a"` (reachable through `assess_password_security`,
which rejects only length 0), the scan bound `pass_len - 2` wraps in
`size_t` arithmetic to `2^64 - 1`, and the very first iteration reads
index 2 of the 2-byte buffer: the embedding reports undefined behaviour
(`none`) for both `check_weak_patterns` and the enclosing assessment. -/
theorem c9_scan_reads_out_of_bounds :
    check_weak_patterns ['a'] = none ∧
    assess_password_security ['a'] = none ∧
    seqScanBound 1 = 2 ^ 64 - 1 :=
  ⟨by decide, by decide, by decide⟩

/-! ## Claim C10: dictionary check sees only the first 255 characters -/

set_option maxRecDepth 20000 in
/-- C10: `check_dictionary_words` truncates the password to 255
characters before lowercasing, matching, and leet-normalised
re-matching, so its result is a function of the 255-character prefix; a
dictionary word placed entirely beyond position 254 goes undetected
(`'x' * 255 ++ "password"` is reported clean although `"password"`
alone is a hit). -/
theorem c10_dictionary_prefix_only (pwd : List Char) :
    check_dictionary_words pwd = check_dictionary_words (pwd.take 255) ∧
    check_dictionary_words (List.replicate 255 'x' ++ "password".toList) = false ∧
    check_dictionary_words "password".toList = true := by
  refine ⟨?_, by decide, by decide⟩
  unfold check_dictionary_words
  have hkey : (pwd.take 255).take (min (pwd.take 255).length 255)
      = pwd.take (min pwd.length 255) := by
    rw [List.length_take, List.take_take]
    congr 1
    omega
  simp only [hkey]

end PassGen
